import Mathlib

/-!
Verification of the event-to-post pipeline of the bigcases2 repository.

The definitions below are a shallow embedding of `bc/subscription/tasks.py`
and `bc/core/utils/status/templates.py`.  External collaborators
(Django ORM lookups, the CourtListener client in
`bc/subscription/utils/courtlistener.py`, the channel selectors in
`bc/channel/selectors.py`, the sponsorship helpers) are not part of the
source tree and are modelled as an explicit environment of pure functions;
Python truthiness of the relevant fields (`None`/`0` integers, empty
strings, empty lists) is modelled explicitly at each use site.
-/

namespace BC

/-- Status values of a `FilingWebhookEvent`.
Modelled from the spec: the model class `bc/subscription/models.py` is not
under `src/`; the spec's state machine (§4.1) lists the states
`RECEIVED` (implicit pre-state), `SUCCESSFUL`, `FAILED`, `IGNORED` and
`WAITING_FOR_DOCUMENT`, which are the constants `tasks.py` reads. -/
inductive Status where
  | received
  | successful
  | failed
  | ignored
  | waitingForDocument
  deriving DecidableEq, Repr

/-- A followed case (`Subscription` row); only the fields read by the
pipeline tasks are modelled. -/
structure Subscription where
  pk : Nat
  clDocketId : Nat
  deriving DecidableEq, Repr

/-- One inbound notification (`FilingWebhookEvent` row); only the fields
read or written by the pipeline tasks are modelled.  `docketId = none` or
`some 0` is Python-falsy (`if not filing_webhook_event.docket_id`);
`pacerDocId = ""` is Python-falsy. `subscription` stores the pk of the
linked `Subscription` row, `none` when the foreign key is null. -/
structure FilingWebhookEvent where
  pk : Nat
  docketId : Option Nat
  docId : Nat
  pacerDocId : String
  description : String
  status : Status
  subscription : Option Nat
  deriving DecidableEq, Repr

/-- The dictionary returned by the CourtListener document lookups
(`DocumentDict`); `filepathLocal = ""` models a null/empty
`filepath_local`, which is Python-falsy. -/
structure DocumentDict where
  filepathLocal : String
  pageCount : Option Nat
  deriving DecidableEq, Repr

/-- A posting destination group; only the data the fan-out reads is kept:
the watermark messages of `group.sponsorships.all()`, in query order. -/
structure Group where
  pk : Nat
  sponsorshipWatermarks : List String
  deriving DecidableEq, Repr

/-- A posting destination (`Channel` row).  Per the spec's data model the
membership in a `Group` is optional, hence `group : Option Group`. -/
structure Channel where
  pk : Nat
  group : Option Group
  deriving DecidableEq, Repr

/-- One job submitted to the `default` queue by the docket-alert fan-out:
the arguments of `make_post_for_webhook_event` it carries. -/
structure Job where
  channelPk : Nat
  fwePk : Nat
  documentUrl : Option String
  sponsorText : Option String
  deriving DecidableEq, Repr

/-- The data `log_purchase` receives: the sponsored group pks, the
subscription pk, and the description/page-count of the purchased
document. -/
structure LedgerEntry where
  sponsorGroupPks : List Nat
  subscriptionPk : Nat
  description : String
  pageCount : Option Nat
  deriving DecidableEq, Repr

/-- A call of `purchase_pdf_by_doc_id(doc_id, docket_id)`. -/
structure PurchaseCall where
  docId : Nat
  docketId : Option Nat
  deriving DecidableEq, Repr

/-- The external collaborators of `tasks.py`, modelled as pure lookup
functions over a fixed database/service state:
`findSubscriptionByDocket` is `Subscription.objects.get(cl_docket_id=...)`
(`none` models `Subscription.DoesNotExist`);
`lookupDocumentByDocId` is `lookup_document_by_doc_id`;
`checkActiveSponsorships` is the truthiness of `check_active_sponsorships`;
`channelsPerSubscription` is `get_channels_per_subscription`
(modelled from the spec: `bc/channel/selectors.py` is not under `src/`;
per spec §4.5 it enumerates every enabled channel of the subscription);
`sponsoredGroupsPerSubscription` is `get_sponsored_groups_per_subscription`
(group pks); `eventStr` is `str(filing_webhook_event)` (model class not
under `src/`); `doNotPay` is the truthiness of `DO_NOT_PAY.search`
(modelled from the spec: `DO_NOT_PAY` is imported by `tasks.py` but absent
from the `templates.py` under `src/`; per spec §4.2 it is a second,
distinct case-insensitive pattern set kept abstract here);
`renderMessage` is the per-channel template rendering of the posting
worker and `addStatus` the channel's platform-posting call returning the
external post id (modelled from the spec: the template selectors, template
base classes and API wrappers are not under `src/`; spec §4.6/§6). -/
structure Env where
  findSubscriptionByDocket : Nat → Option Subscription
  lookupDocumentByDocId : Nat → Option DocumentDict
  checkActiveSponsorships : Nat → Bool
  channelsPerSubscription : Nat → List Channel
  sponsoredGroupsPerSubscription : Nat → List Group
  eventStr : FilingWebhookEvent → String
  doNotPay : String → Bool
  renderMessage : Nat → FilingWebhookEvent → String
  addStatus : Nat → String → Nat

/-! ## The `DO_NOT_POST` pattern (`bc/core/utils/status/templates.py`)

The compiled regex is a verbose, case-insensitive alternation of six
branches; `\s` matches one whitespace character.  We embed it as a token
matcher over lowercased character lists and `DO_NOT_POST.search` as an
any-position scan. -/

/-- One regex token of a `DO_NOT_POST` branch: a literal character or the
`\s` whitespace class. -/
inductive Tok where
  | lit : Char → Tok
  | ws
  deriving DecidableEq, Repr

/-- Whether one token matches one character; `ws` is Python's ASCII `\s`
class. -/
def tokMatches : Tok → Char → Bool
  | .lit a, c => a == c
  | .ws, c =>
      c == ' ' || c == '\t' || c == '\n' || c == '\r' || c == '\x0b' ||
        c == '\x0c'

/-- Match a token list at the head of the input, returning the rest of the
input on success. -/
def matchRest : List Tok → List Char → Option (List Char)
  | [], cs => some cs
  | _ :: _, [] => none
  | t :: ts, c :: cs => if tokMatches t c then matchRest ts cs else none

/-- `re.search` semantics: does the pattern match starting at some
position of the input? -/
def searchToks (p : List Tok) : List Char → Bool
  | [] => (matchRest p []).isSome
  | c :: cs => (matchRest p (c :: cs)).isSome || searchToks p cs

/-- `realizes p mid`: the character list `mid` is one exact realization of
the token pattern `p`, one character per token. -/
def realizes : List Tok → List Char → Bool
  | [], [] => true
  | t :: ts, c :: cs => tokMatches t c && realizes ts cs
  | _, _ => false

/-- Turn a pattern written with plain spaces into tokens, a space becoming
the `\s` class (the source writes each branch with `\s` between words). -/
def toksOfPattern (s : String) : List Tok :=
  s.data.map (fun c => if c == ' ' then Tok.ws else Tok.lit c)

/-- The six branches of the `DO_NOT_POST` alternation, in source order. -/
def DO_NOT_POST : List (List Tok) :=
  [ toksOfPattern "pro hac vice",
    toksOfPattern "notice of appearance",
    toksOfPattern "certificate of disclosure",
    toksOfPattern "corporate disclosure",
    toksOfPattern "add and terminate attorneys",
    toksOfPattern "none" ]

/-- `DO_NOT_POST.search(description)` truthiness: the input is lowercased
(the pattern is all lowercase and compiled with `re.IGNORECASE`) and
scanned for any branch at any position. -/
def doNotPostSearch (s : String) : Bool :=
  DO_NOT_POST.any (fun p => searchToks p (s.data.map Char.toLower))

/-! ## `process_filing_webhook_event` (tasks.py 175-206) -/

/-- Python truthiness of the `docket_id` integer field. -/
def docketTruthy : Option Nat → Bool
  | none => false
  | some d => d != 0

/-- `process_filing_webhook_event`: links a webhook event to a
subscription row by `cl_docket_id`.  Falsy `docket_id` returns the event
unchanged; a failed lookup sets status `FAILED`; a successful lookup sets
the subscription and status `SUCCESSFUL`.  The returned event is the state
the function `save()`s (the whole body runs in one transaction). -/
def process_filing_webhook_event (env : Env) (ev : FilingWebhookEvent) :
    FilingWebhookEvent :=
  if docketTruthy ev.docketId = true then
    match env.findSubscriptionByDocket (ev.docketId.getD 0) with
    | none => { ev with status := .failed }
    | some sub =>
        { ev with subscription := some sub.pk, status := .successful }
  else
    ev

/-! ## `enqueue_posts_for_docket_alert` (tasks.py 134-172) -/

/-- The `AssertionError` message raised by three of the tasks when the
event has no linked subscription. -/
def subscriptionAssertionMsg : String :=
  "The webhook event doesn't have a relationship with a subscription record"

/-- The body of the fan-out loop, one iteration per channel in order.
Reading `channel.group.sponsorships.all()` is unguarded in the source
(under a `# type: ignore`), so a channel without a group raises
`AttributeError` before its job is enqueued; jobs already submitted to the
queue before the raise stay submitted (queue submission is not a database
write and is not rolled back).  Otherwise one job is enqueued carrying the
first sponsorship's watermark message when `check_sponsor_message` is set
and the channel's group has sponsorships.  Returns the submitted jobs and
the raised error, if any. -/
def fanOutLoop (ev : FilingWebhookEvent) (documentUrl : Option String)
    (checkSponsorMessage : Bool) : List Channel → List Job × Option String
  | [] => ([], none)
  | ch :: rest =>
      match ch.group with
      | none => ([], some "AttributeError: NoneType has no sponsorships")
      | some g =>
          let sponsorText :=
            if checkSponsorMessage then g.sponsorshipWatermarks.head?
            else none
          let job : Job := ⟨ch.pk, ev.pk, documentUrl, sponsorText⟩
          let tail := fanOutLoop ev documentUrl checkSponsorMessage rest
          (job :: tail.1, tail.2)

/-- `enqueue_posts_for_docket_alert`: when the event has no subscription
the function returns silently (plain `return`, no exception, no jobs);
otherwise it enqueues one `make_post_for_webhook_event` job per channel of
`get_channels_per_subscription`.  Returns the submitted jobs and the
raised error, if any. -/
def enqueue_posts_for_docket_alert (env : Env) (ev : FilingWebhookEvent)
    (documentUrl : Option String) (checkSponsorMessage : Bool) :
    List Job × Option String :=
  match ev.subscription with
  | none => ([], none)
  | some subPk =>
      fanOutLoop ev documentUrl checkSponsorMessage
        (env.channelsPerSubscription subPk)

/-! ## `check_webhook_before_posting` (tasks.py 209-264) -/

/-- Package a fan-out outcome as the calling task's outcome: a raised
`AttributeError` propagates, otherwise the task returns the event. -/
def fanResult (ev : FilingWebhookEvent) :
    Option String → Except String FilingWebhookEvent
  | some e => .error e
  | none => .ok ev

/-- `check_webhook_before_posting`: the pre-post check.  Returns the
task's outcome (`.error` models a raised exception; on an exception the
transaction rolls back every row update of the call, and no branch of this
function both updates a row and later raises), the jobs submitted to the
queue, and the `purchase_pdf_by_doc_id` calls issued.  Branches, in source
order: early return when status is not `SUCCESSFUL`; `AssertionError` when
no subscription is linked; `IGNORED` on a `DO_NOT_POST` match; a `None`
document lookup raises (`cl_document["filepath_local"]` on `None`); an
available local copy dispatches with that path; otherwise an active
sponsorship plus truthy `pacer_doc_id` plus no `DO_NOT_PAY` match issues
one purchase and moves to `WAITING_FOR_DOCUMENT`; else dispatch with no
document. -/
def check_webhook_before_posting (env : Env) (ev : FilingWebhookEvent) :
    Except String FilingWebhookEvent × List Job × List PurchaseCall :=
  if ev.status ≠ Status.successful then (.ok ev, [], [])
  else
    match ev.subscription with
    | none => (.error subscriptionAssertionMsg, [], [])
    | some subPk =>
        if doNotPostSearch ev.description = true then
          (.ok { ev with status := .ignored }, [], [])
        else
          match env.lookupDocumentByDocId ev.docId with
          | none =>
              (.error "TypeError: NoneType object is not subscriptable",
                [], [])
          | some doc =>
              if doc.filepathLocal ≠ "" then
                let fan := enqueue_posts_for_docket_alert env ev
                  (some doc.filepathLocal) false
                (fanResult ev fan.2, fan.1, [])
              else
                if env.checkActiveSponsorships subPk = true ∧
                    ev.pacerDocId ≠ "" ∧
                    env.doNotPay ev.description = false
                then
                  (.ok { ev with status := .waitingForDocument }, [],
                    [⟨ev.docId, ev.docketId⟩])
                else
                  let fan := enqueue_posts_for_docket_alert env ev none
                    false
                  (fanResult ev fan.2, fan.1, [])

/-! ## `process_fetch_webhook_event` (tasks.py 304-370)

Only the `record_type="filing_webhook"` branch is embedded: the
`"subscription"` branch takes a disjoint code path (initial-complaint
lookup and `enqueue_posts_for_new_case`) that no claim about this function
exercises. -/

/-- The `record_type="filing_webhook"` branch of
`process_fetch_webhook_event`.  In source order: `AssertionError` when the
event has no subscription; the status row update to `SUCCESSFUL`; a
missing document or a missing `filepath_local` raises `AssertionError`
(undoing the status update, see `runFetchFiling`); otherwise a ledger
entry is written via `log_purchase` when the subscription has sponsored
groups (the logged `Document` value is abbreviated to the event string and
page count; its remaining fields copy subscription columns not otherwise
read by the pipeline), and the docket-alert fan-out runs with
`check_sponsor_message=True`.  The first component is the database outcome
(updated event and ledger rows, or a raised error); the second is the jobs
submitted to the queue before any raise. -/
def process_fetch_webhook_event_filing (env : Env)
    (ev : FilingWebhookEvent) :
    Except String (FilingWebhookEvent × List LedgerEntry) × List Job :=
  match ev.subscription with
  | none => (.error subscriptionAssertionMsg, [])
  | some subPk =>
      let ev1 := { ev with status := Status.successful }
      match env.lookupDocumentByDocId ev.docId with
      | none => (.error "The RECAP document lookup failed", [])
      | some doc =>
          if doc.filepathLocal = "" then
            (.error
              "The RECAP document doesn't have a path to download the file",
              [])
          else
            let sponsorGroups := env.sponsoredGroupsPerSubscription subPk
            let ledger : List LedgerEntry :=
              if sponsorGroups = [] then []
              else
                [⟨sponsorGroups.map Group.pk, subPk, env.eventStr ev1,
                  doc.pageCount⟩]
            let fan := enqueue_posts_for_docket_alert env ev1
              (some doc.filepathLocal) true
            (match fan.2 with
              | some e => .error e
              | none => .ok (ev1, ledger), fan.1)

/-- `@transaction.atomic` semantics of the fetch-completion task: on a
raised exception every row update of the call is undone, so the persisted
event is the input event and no ledger row survives; jobs already
submitted to the external queue are not database writes and persist. -/
def runFetchFiling (env : Env) (ev : FilingWebhookEvent) :
    FilingWebhookEvent × List LedgerEntry × List Job :=
  match process_fetch_webhook_event_filing env ev with
  | (.ok r, jobs) => (r.1, r.2, jobs)
  | (.error _, jobs) => (ev, [], jobs)

/-! ## `make_post_for_webhook_event` (tasks.py 373-434) -/

/-- The durable record of one successful publish (`Post` row). -/
structure Post where
  channelPk : Nat
  fwePk : Nat
  objectId : Nat
  text : String
  deriving DecidableEq, Repr

/-- `make_post_for_webhook_event`: the posting worker job.  An event
without a subscription raises `AssertionError`; otherwise the message is
rendered by the channel's template, the platform call returns the external
post id, and a `Post` row is created.  Template selection, thumbnail
derivation and watermarking act on data outside this embedding and are
folded into `Env.renderMessage`/`Env.addStatus` (their sources are not
under `src/`). -/
def make_post_for_webhook_event (env : Env) (channel : Channel)
    (ev : FilingWebhookEvent) (documentUrl : Option String)
    (sponsorText : Option String) : Except String Post :=
  match ev.subscription with
  | none => .error subscriptionAssertionMsg
  | some _ =>
      let message := env.renderMessage channel.pk ev
      .ok ⟨channel.pk, ev.pk, env.addStatus channel.pk message, message⟩

/-! ## The short-form template (`TWITTER_POST_TEMPLATE`)

Modelled from the spec: the template base classes
(`bc/core/utils/status/base.py`, imported by `templates.py`) are not under
`src/`.  Per spec §4.4/§8, the short-form platform's `format` renders the
named fields into the template, counts every link placeholder at the URL
shortener's fixed length, and truncates long inputs so the rendered
message never exceeds the platform's documented 280-character budget. -/

/-- One segment of a rendered message: literal/field text, or a link slot
counted at the shortener's fixed length. -/
inductive Seg where
  | text : List Char → Seg
  | link : String → Seg
  deriving DecidableEq, Repr

/-- Every link counts as the URL shortener's fixed length. -/
def TWITTER_LINK_LENGTH : Nat := 23

/-- The documented character budget of the short-form platform. -/
def TWITTER_MAX_CHARACTERS : Nat := 280

/-- Character cost of a segment toward the budget. -/
def segCost : Seg → Nat
  | .text s => s.length
  | .link _ => TWITTER_LINK_LENGTH

/-- Character cost of a rendered message. -/
def segsCost (l : List Seg) : Nat := (l.map segCost).sum

/-- Modelled from the spec: truncate a rendered segment sequence to a
character budget, left to right; a text segment keeps the prefix that fits
the remaining budget, a link is kept whole when its fixed length fits and
elided together with everything after it otherwise. -/
def truncateSegs : Nat → List Seg → List Seg
  | _, [] => []
  | budget, .text s :: rest =>
      Seg.text (s.take budget) ::
        truncateSegs (budget - (s.take budget).length) rest
  | budget, .link u :: rest =>
      if TWITTER_LINK_LENGTH ≤ budget then
        Seg.link u :: truncateSegs (budget - TWITTER_LINK_LENGTH) rest
      else []

/-- The `TWITTER_POST_TEMPLATE` string template of `templates.py` with its
placeholders substituted, as segments; `pdf_link` and `docket_link` are
the template's `link_placeholders`. -/
def TWITTER_POST_TEMPLATE_render
    (docket docNum description pdfLink docketLink : String) : List Seg :=
  [ Seg.text "New filing: \"".data,
    Seg.text docket.data,
    Seg.text "\"\nDoc #".data,
    Seg.text docNum.data,
    Seg.text ": ".data,
    Seg.text description.data,
    Seg.text "\n\nPDF: ".data,
    Seg.link pdfLink,
    Seg.text "\nDocket: ".data,
    Seg.link docketLink ]

/-- Modelled from the spec: `TWITTER_POST_TEMPLATE.format`, rendering the
fields and enforcing the character budget by truncation. -/
def TWITTER_POST_TEMPLATE_format
    (docket docNum description pdfLink docketLink : String) : List Seg :=
  truncateSegs TWITTER_MAX_CHARACTERS
    (TWITTER_POST_TEMPLATE_render docket docNum description pdfLink
      docketLink)

/-! ## Whole-word reading of the suppression filter

The spec describes the `DO_NOT_POST` patterns as whole-word/phrase
matches.  The following definitions follow the spec's words (not the
source) so the two readings can be compared: an occurrence counts only
when the characters adjacent to it are not word characters. -/

/-- A word character (`\w`): letters, digits, underscore. -/
def isWordChar (c : Char) : Bool := c.isAlphanum || c == '_'

/-- Whether the character before the occurrence (if any) ends a word. -/
def boundaryBefore : Option Char → Bool
  | none => true
  | some c => !isWordChar c

/-- Whether the input after the occurrence starts with a word
character. -/
def boundaryAfter : List Char → Bool
  | [] => true
  | c :: _ => !isWordChar c

/-- Scan for a whole-word occurrence of the pattern, tracking the
character preceding the current position. -/
def wholeWordFrom (p : List Tok) : Option Char → List Char → Bool
  | prev, [] =>
      boundaryBefore prev &&
        (match matchRest p [] with
          | some rest => boundaryAfter rest
          | none => false)
  | prev, c :: rest =>
      (boundaryBefore prev &&
        (match matchRest p (c :: rest) with
          | some r => boundaryAfter r
          | none => false)) ||
      wholeWordFrom p (some c) rest

/-- The spec's whole-word reading of `DO_NOT_POST.search`: some branch
occurs in the lowercased description with non-word characters (or the
ends of the input) on both sides. -/
def doNotPostWholeWord (s : String) : Bool :=
  DO_NOT_POST.any
    (fun p => wholeWordFrom p none (s.data.map Char.toLower))

/-! ## Concrete database states used to evaluate the theorems -/

/-- An environment in which every lookup misses, every listing is empty
and every pattern check is false. -/
def emptyEnv : Env :=
  ⟨fun _ => none, fun _ => none, fun _ => false, fun _ => [], fun _ => [],
    fun _ => "", fun _ => false, fun _ _ => "", fun _ _ => 0⟩

/-- A document with a retrievable local copy. -/
def docAvailable : DocumentDict := ⟨"/recap/1.pdf", some 3⟩

/-- A document with no retrievable local copy. -/
def docUnavailable : DocumentDict := ⟨"", some 3⟩

/-- A group with one sponsorship. -/
def groupA : Group := ⟨7, ["Sponsored by A"]⟩

/-- A group with no sponsorships. -/
def groupB : Group := ⟨8, []⟩

/-- Two channels belonging to groups and one channel without a group. -/
def chan1 : Channel := ⟨1, some groupA⟩

def chan2 : Channel := ⟨2, some groupB⟩

def chanNoGroup : Channel := ⟨3, none⟩

/-- An event already linked to subscription 5 and in `SUCCESSFUL`
status; its description matches no suppression pattern. -/
def evLinked : FilingWebhookEvent :=
  ⟨11, some 100, 200, "PACERX", "Motion to suppress evidence",
    .successful, some 5⟩

/-- A raw inbound event: not yet linked, status not yet set. -/
def evUnlinked : FilingWebhookEvent :=
  ⟨11, some 100, 200, "", "Motion to suppress evidence", .received, none⟩

/-- A linked event whose description matches `DO_NOT_POST`. -/
def evSuppressed : FilingWebhookEvent :=
  { evLinked with description := "Notice of Appearance filed" }

/-- A linked event with an empty (falsy) `pacer_doc_id`. -/
def evNoPacer : FilingWebhookEvent := { evLinked with pacerDocId := "" }

/-- A linked event in `SUCCESSFUL` status with no subscription set: the
data-integrity violation the dispatch guards test. -/
def evNoSubscription : FilingWebhookEvent :=
  { evLinked with subscription := none }

/-- A raw event with a null `docket_id`. -/
def evNullDocket : FilingWebhookEvent :=
  { evUnlinked with docketId := none }

/-- An environment whose subscription 5 has the two grouped channels. -/
def envTwoChannels : Env :=
  { emptyEnv with channelsPerSubscription := fun _ => [chan1, chan2] }

/-- An environment whose subscription 5 has one channel without a
group. -/
def envGroupless : Env :=
  { emptyEnv with channelsPerSubscription := fun _ => [chanNoGroup] }

/-- An environment with an active sponsorship and a document that has no
local copy. -/
def envSponsor : Env :=
  { emptyEnv with
    lookupDocumentByDocId := fun _ => some docUnavailable,
    checkActiveSponsorships := fun _ => true }

/-- An environment for the fetch-completion task: the document now has a
local copy, subscription 5 has one sponsored group and the two grouped
channels. -/
def envFetch : Env :=
  { emptyEnv with
    lookupDocumentByDocId := fun _ => some docAvailable,
    sponsoredGroupsPerSubscription := fun _ => [groupA],
    channelsPerSubscription := fun _ => [chan1, chan2] }

/-! ## Helper lemmas -/

/-- When every channel of the list belongs to a group, the fan-out loop
raises nothing and submits one job per channel carrying that channel's
pk. -/
theorem fanOutLoop_of_groups (ev : FilingWebhookEvent)
    (url : Option String) (flag : Bool) :
    ∀ channels : List Channel,
      (∀ ch ∈ channels, ch.group.isSome = true) →
      (fanOutLoop ev url flag channels).2 = none ∧
      (fanOutLoop ev url flag channels).1.map Job.channelPk =
        channels.map Channel.pk := by
  intro channels
  induction channels with
  | nil => intro _; exact ⟨rfl, rfl⟩
  | cons ch rest ih =>
      intro h
      have hch := h ch (by simp)
      have hrest := ih (fun c hc => h c (List.mem_cons_of_mem ch hc))
      cases hg : ch.group with
      | none => rw [hg] at hch; simp at hch
      | some g =>
          simp only [fanOutLoop, hg]
          exact ⟨hrest.1, by simp [hrest.2]⟩

/-! ## C10: a falsy docket id short-circuits the Link transition -/

/-- C10: for every filing webhook event whose external docket id is null
or zero (Python-falsy), `process_filing_webhook_event` returns the event
with every field unchanged — in particular the status is set to neither
`SUCCESSFUL` nor `FAILED` and no subscription is set — and the result is
the same for every environment, i.e. no subscription lookup can have
influenced it. -/
theorem c10_falsy_docket_no_op (ev : FilingWebhookEvent)
    (h : ev.docketId = none ∨ ev.docketId = some 0) :
    ∀ env : Env, process_filing_webhook_event env ev = ev := by
  intro env
  unfold process_filing_webhook_event
  rcases h with h | h <;> simp [docketTruthy, h]

/-- Witness for C10: the concrete null-docket event is returned
unchanged. -/
theorem c10_falsy_docket_no_op_witness :
    process_filing_webhook_event emptyEnv evNullDocket = evNullDocket :=
  c10_falsy_docket_no_op evNullDocket (Or.inl rfl) emptyEnv

/-! ## C4: idempotency of the Link transition -/

/-- C4: over a fixed subscription table, applying the Link transition
(`process_filing_webhook_event`) twice to the same event yields the same
final (status, subscription) pair as applying it once — the replay is a
no-op, so in particular it never rebinds the event to a different
subscription. -/
theorem c4_link_idempotent (env : Env) (ev : FilingWebhookEvent) :
    process_filing_webhook_event env (process_filing_webhook_event env ev)
      = process_filing_webhook_event env ev := by
  cases ev with
  | mk pk docketId docId pacerDocId description status subscription =>
      unfold process_filing_webhook_event
      by_cases hd : docketTruthy docketId = true
      · cases hl : env.findSubscriptionByDocket (docketId.getD 0) with
        | none => simp [hd, hl]
        | some sub => simp [hd, hl]
      · simp [hd]

/-! ## C2: suppressed descriptions are ignored, no job enqueued -/

/-- C2: for every event in `SUCCESSFUL` status with a linked subscription
whose description matches `DO_NOT_POST`, the pre-post check sets the
status to `IGNORED` while enqueuing no job and issuing no purchase, and
every later run of the pre-post check on the ignored event is a no-op
that enqueues nothing — so no posting job is ever enqueued for the
event. -/
theorem c2_suppressed_event_ignored (env : Env) (ev : FilingWebhookEvent)
    (subPk : Nat) (hst : ev.status = Status.successful)
    (hsub : ev.subscription = some subPk)
    (hmatch : doNotPostSearch ev.description = true) :
    check_webhook_before_posting env ev =
      (.ok { ev with status := Status.ignored }, [], []) ∧
    ∀ env2 : Env,
      check_webhook_before_posting env2 { ev with status := Status.ignored }
        = (.ok { ev with status := Status.ignored }, [], []) := by
  constructor
  · unfold check_webhook_before_posting
    simp [hst, hsub, hmatch]
  · intro env2
    unfold check_webhook_before_posting
    simp

/-- Witness for C2: the concrete suppressed event ("Notice of Appearance
filed") is routed to `IGNORED` with no job and no purchase. -/
theorem c2_suppressed_event_ignored_witness :
    check_webhook_before_posting emptyEnv evSuppressed =
      (.ok { evSuppressed with status := Status.ignored }, [], []) :=
  (c2_suppressed_event_ignored emptyEnv evSuppressed 5 rfl rfl
    (by decide)).1

/-! ## C1: unmatched events fail and FAILED is terminal -/

/-- C1: an inbound event with a (truthy) docket id matching no
subscription is moved to `FAILED` with its subscription left unset, and
from `FAILED` no pipeline operation changes the event: replaying the Link
transition leaves it `FAILED`, the pre-post check returns it unchanged
with no job and no purchase in every environment, and the
fetch-completion task raises (its status write being rolled back), so the
persisted event, ledger and queue are unchanged. -/
theorem c1_unmatched_event_failed_terminal (env : Env)
    (ev : FilingWebhookEvent) (hd : docketTruthy ev.docketId = true)
    (hs : env.findSubscriptionByDocket (ev.docketId.getD 0) = none)
    (hsub : ev.subscription = none) :
    process_filing_webhook_event env ev = { ev with status := .failed } ∧
    ({ ev with status := Status.failed } :
        FilingWebhookEvent).subscription = none ∧
    process_filing_webhook_event env { ev with status := .failed } =
      { ev with status := .failed } ∧
    (∀ env2 : Env,
      check_webhook_before_posting env2 { ev with status := .failed } =
        (.ok { ev with status := .failed }, [], [])) ∧
    (∀ env2 : Env,
      process_fetch_webhook_event_filing env2 { ev with status := .failed }
        = (.error subscriptionAssertionMsg, []) ∧
      runFetchFiling env2 { ev with status := .failed } =
        ({ ev with status := .failed }, [], [])) := by
  refine ⟨?_, ?_, ?_, ?_, ?_⟩
  · unfold process_filing_webhook_event
    simp [hd, hs]
  · simpa using hsub
  · unfold process_filing_webhook_event
    simp [hd, hs]
  · intro env2
    unfold check_webhook_before_posting
    simp
  · intro env2
    have herr : process_fetch_webhook_event_filing env2
        { ev with status := .failed } =
        (.error subscriptionAssertionMsg, []) := by
      unfold process_fetch_webhook_event_filing
      simp [hsub]
    refine ⟨herr, ?_⟩
    unfold runFetchFiling
    rw [herr]

/-- Witness for C1: the concrete unmatched raw event reaches `FAILED`,
stays unlinked, and the later pipeline operations leave it there. -/
theorem c1_unmatched_event_failed_terminal_witness :
    process_filing_webhook_event emptyEnv evUnlinked =
      { evUnlinked with status := .failed } ∧
    runFetchFiling emptyEnv { evUnlinked with status := .failed } =
      ({ evUnlinked with status := .failed }, [], []) := by
  have h := c1_unmatched_event_failed_terminal emptyEnv evUnlinked
    (by decide) rfl rfl
  exact ⟨h.1, (h.2.2.2.2 emptyEnv).2⟩

/-! ## C5: fan-out cardinality -/

/-- Counterexample for C5 as stated: subscription 5 is visible to exactly
one enabled channel (`chanNoGroup`), yet the fan-out submits zero jobs and
raises an `AttributeError` (the unguarded `channel.group.sponsorships`
access), instead of enqueuing exactly one job. -/
theorem c5_counterexample :
    enqueue_posts_for_docket_alert envGroupless evLinked none false =
      ([], some "AttributeError: NoneType has no sponsorships") := rfl

/-- C5 (amended): for every dispatch of an event linked to a subscription
visible to K enabled channels, provided every one of those channels
belongs to a group, the fan-out raises nothing and exactly K posting jobs
are enqueued, one per channel, each carrying that channel's id — so the
carried channel ids are distinct whenever the channels are. -/
theorem c5_fanout_cardinality (env : Env) (ev : FilingWebhookEvent)
    (subPk : Nat) (url : Option String) (flag : Bool)
    (hsub : ev.subscription = some subPk)
    (hgroups : ∀ ch ∈ env.channelsPerSubscription subPk,
      ch.group.isSome = true)
    (hnodup : ((env.channelsPerSubscription subPk).map Channel.pk).Nodup) :
    (enqueue_posts_for_docket_alert env ev url flag).2 = none ∧
    (enqueue_posts_for_docket_alert env ev url flag).1.length =
      (env.channelsPerSubscription subPk).length ∧
    (enqueue_posts_for_docket_alert env ev url flag).1.map Job.channelPk =
      (env.channelsPerSubscription subPk).map Channel.pk ∧
    ((enqueue_posts_for_docket_alert env ev url flag).1.map
      Job.channelPk).Nodup := by
  have h := fanOutLoop_of_groups ev url flag
    (env.channelsPerSubscription subPk) hgroups
  unfold enqueue_posts_for_docket_alert
  rw [hsub]
  refine ⟨h.1, ?_, h.2, ?_⟩
  · have hlen := congrArg List.length h.2
    simpa using hlen
  · rw [h.2]; exact hnodup

/-- Witness for C5 (amended): subscription 5 with its two grouped
channels gets exactly two jobs, one per channel id. -/
theorem c5_fanout_cardinality_witness :
    (enqueue_posts_for_docket_alert envTwoChannels evLinked none
      false).2 = none ∧
    (enqueue_posts_for_docket_alert envTwoChannels evLinked none
      false).1.map Job.channelPk = [1, 2] :=
  ⟨(c5_fanout_cardinality envTwoChannels evLinked 5 none false rfl
      (by decide) (by decide)).1, rfl⟩

/-! ## C3: purchase gating -/

/-- Counterexample for C3 as stated: `evNoPacer` has no retrievable local
copy (`docUnavailable`), an active sponsorship, and a description matching
no purchase-suppression pattern, yet — because its `pacer_doc_id` is empty
— the pre-post check leaves its status `SUCCESSFUL` (not
`WAITING_FOR_DOCUMENT`) and issues zero purchase requests. -/
theorem c3_counterexample :
    check_webhook_before_posting envSponsor evNoPacer =
      (.ok evNoPacer, [], []) ∧ evNoPacer.status = Status.successful :=
  ⟨rfl, rfl⟩

/-- C3 (amended): in the pre-post check, given an event whose document
has no retrievable local copy, an active sponsorship for the event's
subscription, a truthy PACER document id, and a description not matching
the purchase-suppression pattern, the event transitions to
`WAITING_FOR_DOCUMENT`, exactly one purchase request is issued and no job
is enqueued; given a document with an available local copy, no purchase
request is issued. -/
theorem c3_purchase_gating (env : Env) (ev : FilingWebhookEvent)
    (subPk : Nat) (doc : DocumentDict)
    (hst : ev.status = Status.successful)
    (hsub : ev.subscription = some subPk)
    (hpost : doNotPostSearch ev.description = false)
    (hdoc : env.lookupDocumentByDocId ev.docId = some doc) :
    (doc.filepathLocal = "" → env.checkActiveSponsorships subPk = true →
      ev.pacerDocId ≠ "" → env.doNotPay ev.description = false →
      check_webhook_before_posting env ev =
        (.ok { ev with status := Status.waitingForDocument }, [],
          [⟨ev.docId, ev.docketId⟩])) ∧
    (doc.filepathLocal ≠ "" →
      (check_webhook_before_posting env ev).2.2 = []) := by
  constructor
  · intro hfp hsp hpacer hpay
    unfold check_webhook_before_posting
    simp [hst, hsub, hpost, hdoc, hfp, hsp, hpacer, hpay]
  · intro hfp
    unfold check_webhook_before_posting
    simp [hst, hsub, hpost, hdoc, hfp]

/-- Witness for C3 (amended): `evLinked` (PACER id `"PACERX"`) with an
active sponsorship and an unavailable document moves to
`WAITING_FOR_DOCUMENT` with exactly one purchase call; the same event
against an available document gets no purchase call. -/
theorem c3_purchase_gating_witness :
    check_webhook_before_posting envSponsor evLinked =
      (.ok { evLinked with status := Status.waitingForDocument }, [],
        [⟨200, some 100⟩]) ∧
    (check_webhook_before_posting envFetch evLinked).2.2 = [] := by
  constructor
  · exact (c3_purchase_gating envSponsor evLinked 5 docUnavailable rfl rfl
      (by decide) rfl).1 rfl rfl (by decide) rfl
  · exact (c3_purchase_gating envFetch evLinked 5 docAvailable rfl rfl
      (by decide) rfl).2 (by decide)

/-! ## C7: missing subscription at dispatch time -/

/-- Counterexample for C7 as stated: the dispatch fan-out
`enqueue_posts_for_docket_alert`, given an event with no linked
subscription, does not raise: it returns silently with zero jobs and no
error. -/
theorem c7_counterexample :
    enqueue_posts_for_docket_alert emptyEnv evNoSubscription none false =
      ([], none) := rfl

/-- C7 (amended): an event without a linked subscription makes
`check_webhook_before_posting` (from `SUCCESSFUL` status),
`process_fetch_webhook_event` and `make_post_for_webhook_event` fail
loudly with a non-retryable `AssertionError`; the fan-out
`enqueue_posts_for_docket_alert`, by contrast, returns silently,
enqueuing nothing and raising nothing. -/
theorem c7_missing_subscription_guards (env : Env) (channel : Channel)
    (ev : FilingWebhookEvent) (url : Option String)
    (sponsorText : Option String) (flag : Bool)
    (hsub : ev.subscription = none) :
    (ev.status = Status.successful →
      check_webhook_before_posting env ev =
        (.error subscriptionAssertionMsg, [], [])) ∧
    process_fetch_webhook_event_filing env ev =
      (.error subscriptionAssertionMsg, []) ∧
    make_post_for_webhook_event env channel ev url sponsorText =
      .error subscriptionAssertionMsg ∧
    enqueue_posts_for_docket_alert env ev url flag = ([], none) := by
  refine ⟨?_, ?_, ?_, ?_⟩
  · intro hst
    unfold check_webhook_before_posting
    simp [hst, hsub]
  · unfold process_fetch_webhook_event_filing
    simp [hsub]
  · unfold make_post_for_webhook_event
    simp [hsub]
  · unfold enqueue_posts_for_docket_alert
    simp [hsub]

/-- Witness for C7 (amended), at the concrete unlinked-but-successful
event. -/
theorem c7_missing_subscription_guards_witness :
    check_webhook_before_posting emptyEnv evNoSubscription =
      (.error subscriptionAssertionMsg, [], []) ∧
    make_post_for_webhook_event emptyEnv chan1 evNoSubscription none none
      = .error subscriptionAssertionMsg := by
  have h := c7_missing_subscription_guards emptyEnv chan1
    evNoSubscription none none false rfl
  exact ⟨h.1 rfl, h.2.2.1⟩

/-! ## C6: fetch completion -/

/-- C6: for an event with a linked subscription, the fetch-completion
transition (filing branch of `process_fetch_webhook_event`) raises when
the expected document is missing or has no storage path, and — the whole
call being one atomic transaction — the status write made earlier in the
call is rolled back, leaving the persisted event, ledger and queue
unchanged; when the document and its path are present and the
subscription has sponsored group(s) (and every channel belongs to a
group, so the fan-out does not raise), exactly one purchase ledger entry
is logged against those groups and dispatch proceeds with the
sponsor-watermark flag (`check_sponsor_message`) set. -/
theorem c6_fetch_completion (env : Env) (ev : FilingWebhookEvent)
    (subPk : Nat) (hsub : ev.subscription = some subPk) :
    (env.lookupDocumentByDocId ev.docId = none →
      process_fetch_webhook_event_filing env ev =
        (.error "The RECAP document lookup failed", []) ∧
      runFetchFiling env ev = (ev, [], [])) ∧
    (∀ doc : DocumentDict, env.lookupDocumentByDocId ev.docId = some doc →
      doc.filepathLocal = "" →
      process_fetch_webhook_event_filing env ev =
        (.error
          "The RECAP document doesn't have a path to download the file",
          []) ∧
      runFetchFiling env ev = (ev, [], [])) ∧
    (∀ doc : DocumentDict, env.lookupDocumentByDocId ev.docId = some doc →
      doc.filepathLocal ≠ "" →
      env.sponsoredGroupsPerSubscription subPk ≠ [] →
      (∀ ch ∈ env.channelsPerSubscription subPk,
        ch.group.isSome = true) →
      process_fetch_webhook_event_filing env ev =
        (.ok ({ ev with status := Status.successful },
          [⟨(env.sponsoredGroupsPerSubscription subPk).map Group.pk,
            subPk,
            env.eventStr { ev with status := Status.successful },
            doc.pageCount⟩]),
          (fanOutLoop { ev with status := Status.successful }
            (some doc.filepathLocal) true
            (env.channelsPerSubscription subPk)).1)) := by
  refine ⟨?_, ?_, ?_⟩
  · intro hdoc
    have herr : process_fetch_webhook_event_filing env ev =
        (.error "The RECAP document lookup failed", []) := by
      unfold process_fetch_webhook_event_filing
      simp [hsub, hdoc]
    exact ⟨herr, by unfold runFetchFiling; rw [herr]⟩
  · intro doc hdoc hfp
    have herr : process_fetch_webhook_event_filing env ev =
        (.error
          "The RECAP document doesn't have a path to download the file",
          []) := by
      unfold process_fetch_webhook_event_filing
      simp [hsub, hdoc, hfp]
    exact ⟨herr, by unfold runFetchFiling; rw [herr]⟩
  · intro doc hdoc hfp hgroups hchg
    have hfan := fanOutLoop_of_groups
      { ev with status := Status.successful } (some doc.filepathLocal)
      true (env.channelsPerSubscription subPk) hchg
    rw [hsub] at hfan
    unfold process_fetch_webhook_event_filing
    simp [hsub, hdoc, hfp, hgroups, enqueue_posts_for_docket_alert,
      hfan.1]

/-- Witness for C6: the concrete event at the pathless document rolls
back (persisted state unchanged), and at the available document with a
sponsored group it logs one ledger entry and enqueues the two channel
jobs with the sponsor watermark on the sponsored channel. -/
theorem c6_fetch_completion_witness :
    runFetchFiling envSponsor evLinked = (evLinked, [], []) ∧
    process_fetch_webhook_event_filing envFetch evLinked =
      (.ok (evLinked, [⟨[7], 5, "", some 3⟩]),
        [⟨1, 11, some "/recap/1.pdf", some "Sponsored by A"⟩,
          ⟨2, 11, some "/recap/1.pdf", none⟩]) := by
  have h1 := c6_fetch_completion envSponsor evLinked 5 rfl
  have h2 := c6_fetch_completion envFetch evLinked 5 rfl
  refine ⟨(h1.2.1 docUnavailable rfl rfl).2, ?_⟩
  have h3 := h2.2.2 docAvailable rfl (by decide) (by decide)
    (by decide)
  rw [h3]; rfl

/-! ## C8: short-form template length invariant -/

/-- Truncation to a budget never exceeds the budget. -/
theorem segsCost_truncateSegs_le (l : List Seg) :
    ∀ b : Nat, segsCost (truncateSegs b l) ≤ b := by
  induction l with
  | nil => intro b; simp [truncateSegs, segsCost]
  | cons s rest ih =>
      intro b
      cases s with
      | text cs =>
          have h1 : (cs.take b).length ≤ b := by
            rw [List.length_take]; exact min_le_left _ _
          have h2 := ih (b - (cs.take b).length)
          simp only [truncateSegs, segsCost, List.map_cons,
            List.sum_cons, segCost] at h2 ⊢
          omega
      | link u =>
          by_cases h : TWITTER_LINK_LENGTH ≤ b
          · have h2 := ih (b - TWITTER_LINK_LENGTH)
            simp only [truncateSegs, if_pos h, segsCost, List.map_cons,
              List.sum_cons, segCost] at h2 ⊢
            omega
          · simp only [truncateSegs, if_neg h, segsCost, List.map_nil,
              List.sum_nil]
            omega

/-- C8: for the short-form platform's filing template, for every
combination of input field values the rendered message's cost — links
counted at the shortener's fixed length — never exceeds the documented
280-character budget: long inputs are truncated, the format operation
never overflows and is total. -/
theorem c8_twitter_template_budget
    (docket docNum description pdfLink docketLink : String) :
    segsCost (TWITTER_POST_TEMPLATE_format docket docNum description
      pdfLink docketLink) ≤ TWITTER_MAX_CHARACTERS :=
  segsCost_truncateSegs_le _ _

/-! ## C9: the suppression filter is a substring match -/

/-- A successful `matchRest` run splits the input into a realization of
the pattern followed by the returned rest. -/
theorem matchRest_some_iff (p : List Tok) :
    ∀ cs rest : List Char,
      matchRest p cs = some rest ↔
        ∃ mid, cs = mid ++ rest ∧ realizes p mid = true := by
  induction p with
  | nil =>
      intro cs rest
      constructor
      · intro h
        simp only [matchRest, Option.some.injEq] at h
        exact ⟨[], by simp [h], rfl⟩
      · rintro ⟨mid, hcs, hr⟩
        cases mid with
        | nil => simp [matchRest, hcs]
        | cons m ms => simp [realizes] at hr
  | cons t ts ih =>
      intro cs rest
      cases cs with
      | nil =>
          constructor
          · intro h; simp [matchRest] at h
          · rintro ⟨mid, hcs, hr⟩
            cases mid with
            | nil => simp [realizes] at hr
            | cons m ms => simp at hcs
      | cons c cs2 =>
          constructor
          · intro h
            simp only [matchRest] at h
            by_cases htc : tokMatches t c = true
            · rw [if_pos htc] at h
              obtain ⟨mid2, hcs2, hr2⟩ := (ih cs2 rest).1 h
              exact ⟨c :: mid2, by simp [hcs2],
                by simp [realizes, htc, hr2]⟩
            · rw [if_neg htc] at h
              simp at h
          · rintro ⟨mid, hcs, hr⟩
            cases mid with
            | nil => simp [realizes] at hr
            | cons m ms =>
                rw [List.cons_append] at hcs
                injection hcs with h1 h2
                subst h1
                simp only [realizes, Bool.and_eq_true] at hr
                obtain ⟨htm, hrs⟩ := hr
                simp only [matchRest, if_pos htm]
                exact (ih cs2 rest).2 ⟨ms, h2, hrs⟩

/-- `re.search` semantics, declaratively: some decomposition of the input
has a middle realizing the pattern. -/
theorem searchToks_iff (p : List Tok) :
    ∀ cs : List Char,
      searchToks p cs = true ↔
        ∃ pre mid post, cs = pre ++ mid ++ post ∧
          realizes p mid = true := by
  intro cs
  induction cs with
  | nil =>
      simp only [searchToks]
      constructor
      · intro h
        rw [Option.isSome_iff_exists] at h
        obtain ⟨rest, hrest⟩ := h
        obtain ⟨mid, hmid, hr⟩ := (matchRest_some_iff p [] rest).1 hrest
        obtain ⟨h1, h2⟩ := List.append_eq_nil.mp hmid.symm
        subst h1
        exact ⟨[], [], [], rfl, hr⟩
      · rintro ⟨pre, mid, post, hcs, hr⟩
        obtain ⟨h1, h2⟩ := List.append_eq_nil.mp hcs.symm
        obtain ⟨h3, h4⟩ := List.append_eq_nil.mp h1
        subst h4
        rw [Option.isSome_iff_exists]
        exact ⟨[], (matchRest_some_iff p [] []).2 ⟨[], rfl, hr⟩⟩
  | cons c cs2 ih =>
      simp only [searchToks, Bool.or_eq_true]
      constructor
      · rintro (h | h)
        · rw [Option.isSome_iff_exists] at h
          obtain ⟨rest, hrest⟩ := h
          obtain ⟨mid, hmid, hr⟩ :=
            (matchRest_some_iff p (c :: cs2) rest).1 hrest
          exact ⟨[], mid, rest, by simpa using hmid, hr⟩
        · obtain ⟨pre, mid, post, hcs, hr⟩ := ih.1 h
          exact ⟨c :: pre, mid, post, by simp [hcs], hr⟩
      · rintro ⟨pre, mid, post, hcs, hr⟩
        cases pre with
        | nil =>
            left
            rw [Option.isSome_iff_exists]
            refine ⟨post, (matchRest_some_iff p (c :: cs2) post).2
              ⟨mid, ?_, hr⟩⟩
            simpa using hcs
        | cons p0 pre2 =>
            right
            apply ih.2
            refine ⟨pre2, mid, post, ?_, hr⟩
            simp only [List.cons_append, List.cons.injEq] at hcs
            exact hcs.2

/-- Counterexample for C9 as stated: the description "Nonetheless,
defendant objects" contains the phrase "none" only as a substring of the
longer word "nonetheless" — no whole-word occurrence of any pattern —
yet `DO_NOT_POST.search` matches it (the compiled regex has no word
boundaries). -/
theorem c9_counterexample :
    doNotPostSearch "Nonetheless, defendant objects" = true ∧
    doNotPostWholeWord "Nonetheless, defendant objects" = false := by
  constructor <;> decide

/-- C9 (amended): the post-suppression pattern set matches a description
if and only if its lowercased character sequence contains one of the six
fixed phrases as a contiguous substring (the space in a phrase matching
any single whitespace character), with no word-boundary requirement — a
phrase occurring inside a longer word is still suppressed. -/
theorem c9_suppression_matches_substring (s : String) :
    doNotPostSearch s = true ↔
      ∃ p ∈ DO_NOT_POST, ∃ pre mid post,
        s.data.map Char.toLower = pre ++ mid ++ post ∧
        realizes p mid = true := by
  unfold doNotPostSearch
  rw [List.any_eq_true]
  constructor
  · rintro ⟨p, hp, hs⟩
    exact ⟨p, hp, (searchToks_iff p _).1 hs⟩
  · rintro ⟨p, hp, hsub⟩
    exact ⟨p, hp, (searchToks_iff p _).2 hsub⟩

end BC

